import Mathlib

/-!
Verification of the Stripe webhook ingestion and order-reconciliation handler
(`src/pages/api/webhooks/stripe.ts`).

The handler is embedded shallowly: the relational store (Prisma tables
`Order`, `WebhookEvent`, `ConnectedAccount`) becomes lists of rows keyed
by their unique columns, the Stripe SDK becomes an environment of
oracles (`constructEvent` for signature verification, `retrieveCharge`
for the charge lookup), and the Next.js request/response pair becomes a
`Request` input and a `Response` outcome.  A JavaScript exception that
escapes the handler (it is only caught inside the `try` block around the
event switch) is modelled as `Except.error` at the handler level, while
`res.status(...).json(...)` responses are the `Except.ok` outcomes.
-/

namespace StripeWebhook

/-- A Stripe API field that is either a bare id string or an expanded
object carrying an `id` field (the code handles both with
`typeof x === "string" ? x : x?.id`). -/
inductive IdOrExpanded where
  | idStr (id : String)
  | expanded (id : String)
deriving DecidableEq

/-- Evaluate `typeof x === "string" ? x : x?.id` on a non-null value. -/
def IdOrExpanded.resolve : IdOrExpanded → String
  | .idStr i => i
  | .expanded i => i

/-- The metadata keys of a PaymentIntent that the handler reads
(`buyerId`, `sellerStripeAccountId`, `platformFee`); `platformFee` is
carried as the number its decimal string denotes
(`Number(pi.metadata?.platformFee ?? "0")`). -/
structure PIMetadata where
  buyerId : Option String
  sellerStripeAccountId : Option String
  platformFee : Option Int
deriving DecidableEq

/-- The empty metadata object `{}` used by `toJson(pi.metadata ?? {})`. -/
def PIMetadata.empty : PIMetadata := ⟨none, none, none⟩

/-- The fields of `Stripe.PaymentIntent` the handler reads. -/
structure PaymentIntent where
  id : String
  amount_received : Option Int
  amount : Option Int
  currency : Option String
  metadata : Option PIMetadata
  latest_charge : Option IdOrExpanded
deriving DecidableEq

/-- The fields of `Stripe.Checkout.Session` the handler reads. -/
structure CheckoutSession where
  id : String
  payment_intent : Option IdOrExpanded
deriving DecidableEq

/-- The fields of `Stripe.Account` the handler reads on `account.updated`. -/
structure StripeAccount where
  id : String
  charges_enabled : Option Bool
  payouts_enabled : Option Bool
  details_submitted : Option Bool
  country : Option String
  default_currency : Option String
  requirements : Option String
  capabilities : Option String
deriving DecidableEq

/-- The fields of `Stripe.Charge` the handler reads after
`stripe.charges.retrieve`. -/
structure Charge where
  transfer : Option IdOrExpanded
deriving DecidableEq

/-- The event payload: the switch on `event.type` casts
`event.data.object` according to the type tag, so the tag and the object
are bundled into one sum.  `other` covers every type the switch defaults
on. -/
inductive EventBody where
  | checkoutSessionCompleted (session : CheckoutSession)
  | paymentIntentSucceeded (pi : PaymentIntent)
  | accountUpdated (account : StripeAccount)
  | other (type : String)
deriving DecidableEq

/-- A verified `Stripe.Event`. -/
structure Event where
  id : String
  body : EventBody
deriving DecidableEq

/-- The string `event.type` that the switch matches on. -/
def Event.type (e : Event) : String :=
  match e.body with
  | .checkoutSessionCompleted _ => "checkout.session.completed"
  | .paymentIntentSucceeded _ => "payment_intent.succeeded"
  | .accountUpdated _ => "account.updated"
  | .other t => t

/-- A row of the `Order` table (prisma schema: unique
`paymentIntentId`; defaults `status='created'`,
`paymentState='processing'`, `amountRefunded=0`, nullable
`buyerId`, `checkoutSessionId`, `transferId`, `chargeId`). -/
structure Order where
  paymentIntentId : String
  sellerAccountId : String
  buyerId : Option String
  amount : Int
  platformFee : Int
  currency : String
  transferId : Option String
  status : String
  metadata : PIMetadata
  checkoutSessionId : Option String
  chargeId : Option String
  amountRefunded : Int
  paymentState : String
deriving DecidableEq

/-- A row of the `WebhookEvent` ledger (unique `stripeEventId`,
nullable `processedAt`; the raw JSON payload round-trips through
`toJson`, so it is kept as the event itself). -/
structure WebhookEvent where
  stripeEventId : String
  type : String
  payload : Event
  processedAt : Option Nat
deriving DecidableEq

/-- A row of the `ConnectedAccount` table (unique `stripeAccountId`);
`requirements`/`capabilities` are opaque JSON snapshots kept as
strings. -/
structure ConnectedAccount where
  id : String
  stripeAccountId : String
  chargesEnabled : Bool
  payoutsEnabled : Bool
  detailsSubmitted : Bool
  onboardingCompletedAt : Option Nat
  country : Option String
  defaultCurrency : Option String
  requirements : Option String
  capabilities : Option String
deriving DecidableEq

/-- The relational store visible to the handler. -/
structure Store where
  orders : List Order
  webhookEvents : List WebhookEvent
  connectedAccounts : List ConnectedAccount
deriving DecidableEq

/-- The responses the handler sends through `res.status(...).json(...)`. -/
inductive Response where
  | methodNotAllowed
  | missingSignature
  | missingSecret
  | sigVerificationFailed (message : String)
  | duplicate
  | received
  | processingFailed (message : String)
deriving DecidableEq

/-- The HTTP status code of each response. -/
def Response.status : Response → Nat
  | .methodNotAllowed => 405
  | .missingSignature => 400
  | .missingSecret => 500
  | .sigVerificationFailed _ => 400
  | .duplicate => 200
  | .received => 200
  | .processingFailed _ => 500

/-- The inbound HTTP request: method, `stripe-signature` header
(`none` when the header is absent or not a single string), raw body. -/
structure Request where
  method : String
  stripeSignature : Option String
  body : String

/-- The environment: the configured webhook secret
(`process.env.STRIPE_WEBHOOK_SECRET`), the Stripe SDK's
`webhooks.constructEvent` (throws on bad signature, modelled as
`Except`), `charges.retrieve` (may throw), and the current time
(`new Date()`), abstracted to a `Nat`. -/
structure Env where
  webhookSecret : Option String
  constructEvent : String → String → String → Except String Event
  retrieveCharge : String → Except String Charge
  now : Nat

/-- Result type of `constructEventSafe`:
`{ ok: true; event } | { ok: false; message }`. -/
inductive VerifyResult where
  | ok (event : Event)
  | err (message : String)
deriving DecidableEq

/-- The function `constructEventSafe`: wraps
`stripe.webhooks.constructEvent` in a try/catch that turns the thrown
error into a tagged failure. -/
def constructEventSafe (env : Env) (buf sig secret : String) : VerifyResult :=
  match env.constructEvent buf sig secret with
  | .ok e => .ok e
  | .error m => .err m

/-- The dedup lookup
`prisma.webhookEvent.findUnique({ where: { stripeEventId } })`. -/
def ledgerRow (st : Store) (eventId : String) : Option WebhookEvent :=
  st.webhookEvents.find? (fun w => w.stripeEventId = eventId)

/-- The new ledger row appended by a successful
`prisma.webhookEvent.create` (`processedAt` starts null). -/
def ledgerAppend (st : Store) (e : Event) : Store :=
  { st with webhookEvents :=
      st.webhookEvents ++
        [{ stripeEventId := e.id, type := e.type, payload := e,
           processedAt := none }] }

/-- The insert `prisma.webhookEvent.create`: the unique constraint on
`stripeEventId` rejects the insert when a row with the same event id
already exists (Prisma error P2002). -/
def webhookEventCreate (st : Store) (e : Event) : Except String Store :=
  match ledgerRow st e.id with
  | some _ => .error "Unique constraint failed on the fields: (stripeEventId)"
  | none => .ok (ledgerAppend st e)

/-- The update
`prisma.webhookEvent.update({ where: { stripeEventId }, data: { processedAt: new Date() } })`. -/
def markProcessed (st : Store) (eventId : String) (now : Nat) : Store :=
  { st with webhookEvents :=
      st.webhookEvents.map (fun w =>
        if w.stripeEventId = eventId then { w with processedAt := some now } else w) }

/-- The `checkout.session.completed` branch body:
`prisma.order.update({ where: { paymentIntentId }, data: { checkoutSessionId } }).catch(() => {})`.
The catch swallows every rejection, so both "no Order for this
payment-intent id" (Prisma P2025) and a unique-index conflict on
`checkoutSessionId` degrade to a no-op. -/
def orderAttachSession (st : Store) (piId sessId : String) : Store :=
  match st.orders.find? (fun o => o.paymentIntentId = piId) with
  | none => st
  | some _ =>
      if st.orders.any (fun o => o.checkoutSessionId = some sessId ∧ o.paymentIntentId ≠ piId)
      then st
      else
        { st with orders :=
            st.orders.map (fun o =>
              if o.paymentIntentId = piId then { o with checkoutSessionId := some sessId }
              else o) }

/-- The row inserted by the `create:` block of the Order upsert: the
block's own fields (`transferId`/`buyerId` being `undefined` leaves the
column at its `null` default) plus the schema defaults for the columns
it leaves out (`paymentState='processing'`, `amountRefunded=0`, null
`checkoutSessionId`/`chargeId`). -/
def createdOrder (pi : PaymentIntent) (sellerId : String)
    (amount platformFee : Int) (currency : String)
    (transferId buyerId : Option String) : Order :=
  { paymentIntentId := pi.id
    sellerAccountId := sellerId
    buyerId := buyerId
    amount := amount
    platformFee := platformFee
    currency := currency
    transferId := transferId
    status := "paid"
    metadata := pi.metadata.getD PIMetadata.empty
    checkoutSessionId := none
    chargeId := none
    amountRefunded := 0
    paymentState := "processing" }

/-- The row rewrite performed by the `update:` block of the Order
upsert: only amount, platformFee, currency, transferId, status,
metadata appear in the block, and an `undefined` `transferId` is
skipped by Prisma, so the existing transfer id survives. -/
def updatedOrder (pi : PaymentIntent) (amount platformFee : Int) (currency : String)
    (transferId : Option String) (o : Order) : Order :=
  { o with
    amount := amount
    platformFee := platformFee
    currency := currency
    transferId := match transferId with
                  | some t => some t
                  | none => o.transferId
    status := "paid"
    metadata := pi.metadata.getD PIMetadata.empty }

/-- The call
`prisma.order.upsert({ where: { paymentIntentId: pi.id }, create: {...}, update: {...} })`. -/
def orderUpsert (st : Store) (pi : PaymentIntent) (sellerId : String)
    (amount platformFee : Int) (currency : String)
    (transferId buyerId : Option String) : Store :=
  match st.orders.find? (fun o => o.paymentIntentId = pi.id) with
  | none =>
      { st with orders :=
          st.orders ++ [createdOrder pi sellerId amount platformFee currency transferId buyerId] }
  | some _ =>
      { st with orders :=
          st.orders.map (fun o =>
            if o.paymentIntentId = pi.id then
              updatedOrder pi amount platformFee currency transferId o
            else o) }

/-- The `account.updated` branch body:
`prisma.connectedAccount.update({ where: { stripeAccountId }, data: {...} }).catch(() => {})`.
A missing local row degrades to a no-op; `toJsonOrUndefined` yields
`undefined` on a null snapshot, which Prisma skips (column keeps its
old value), while `country`/`defaultCurrency` are written with
`?? null` (overwritten with null when absent). -/
def connectedAccountSync (st : Store) (a : StripeAccount) (now : Nat) : Store :=
  match st.connectedAccounts.find? (fun c => c.stripeAccountId = a.id) with
  | none => st
  | some _ =>
      { st with connectedAccounts :=
          st.connectedAccounts.map (fun c =>
            if c.stripeAccountId = a.id then
              { c with chargesEnabled := a.charges_enabled.getD false
                       payoutsEnabled := a.payouts_enabled.getD false
                       detailsSubmitted := a.details_submitted.getD false
                       onboardingCompletedAt :=
                         if a.details_submitted.getD false then some now else none
                       country := a.country
                       defaultCurrency := a.default_currency
                       requirements := match a.requirements with
                                       | some r => some r
                                       | none => c.requirements
                       capabilities := match a.capabilities with
                                       | some k => some k
                                       | none => c.capabilities }
            else c) }

/-- Evaluate `pi.metadata?.buyerId || null` followed by
`rawBuyerId && rawBuyerId !== "guest" ? rawBuyerId : null`:
an absent, empty, or `"guest"` buyer id becomes null. -/
def resolveBuyerId (m : Option PIMetadata) : Option String :=
  match m.bind PIMetadata.buyerId with
  | none => none
  | some b => if b = "" then none else if b = "guest" then none else some b

/-- The settled amount `pi.amount_received ?? pi.amount ?? 0`. -/
def settledAmount (pi : PaymentIntent) : Int :=
  (pi.amount_received.orElse fun _ => pi.amount).getD 0

/-- Evaluate JavaScript `.toUpperCase()`: uppercase each character. -/
def jsToUpper (s : String) : String := ⟨s.data.map Char.toUpper⟩

/-- The currency `(pi.currency ?? "usd").toUpperCase()`. -/
def settledCurrency (pi : PaymentIntent) : String :=
  jsToUpper (pi.currency.getD "usd")

/-- The seller lookup key `pi.metadata?.sellerStripeAccountId || ""`. -/
def sellerAcctOf (pi : PaymentIntent) : String :=
  (pi.metadata.bind PIMetadata.sellerStripeAccountId).getD ""

/-- The fee `Number(pi.metadata?.platformFee ?? "0")`. -/
def platformFeeOf (pi : PaymentIntent) : Int :=
  (pi.metadata.bind PIMetadata.platformFee).getD 0

/-- The charge-id extraction
`typeof pi.latest_charge === "string" ? pi.latest_charge : pi.latest_charge?.id`. -/
def resolveChargeId (pi : PaymentIntent) : Option String :=
  pi.latest_charge.map IdOrExpanded.resolve

/-- The charge-enrichment step of the `payment_intent.succeeded` branch
(lines 112–122): when a charge id is present, `stripe.charges.retrieve`
is awaited with NO surrounding catch, so its rejection propagates to the
outer try/catch; on success the transfer id is extracted with
`typeof ch.transfer === "string" ? ch.transfer : ch.transfer?.id ?? undefined`. -/
def transferIdStep (env : Env) (pi : PaymentIntent) : Except String (Option String) :=
  match resolveChargeId pi with
  | none => .ok none
  | some cid =>
      match env.retrieveCharge cid with
      | .error m => .error m
      | .ok ch => .ok (ch.transfer.map IdOrExpanded.resolve)

/-- The `switch (event.type)` inside the `try` block (lines 77–183).
`Except.error` is a fault that the surrounding catch turns into a 500;
every fault source (only `stripe.charges.retrieve`) occurs before any
store mutation of its branch, so the store at a fault is the entry
store. -/
def processEvent (env : Env) (event : Event) (st : Store) : Except String Store :=
  match event.body with
  | .checkoutSessionCompleted session =>
      match session.payment_intent.map IdOrExpanded.resolve with
      | none => .ok st
      | some piId =>
          if piId ≠ "" ∧ session.id ≠ "" then .ok (orderAttachSession st piId session.id)
          else .ok st
  | .paymentIntentSucceeded pi =>
      match transferIdStep env pi with
      | .error m => .error m
      | .ok transferId =>
          match st.connectedAccounts.find? (fun a => a.stripeAccountId = sellerAcctOf pi) with
          | none => .ok st
          | some seller =>
              .ok (orderUpsert st pi seller.id (settledAmount pi) (platformFeeOf pi)
                     (settledCurrency pi) transferId (resolveBuyerId pi.metadata))
  | .accountUpdated account => .ok (connectedAccountSync st account env.now)
  | .other _ => .ok st

/-- Lines 71–196: persist the ledger row (OUTSIDE the try block — a
uniqueness conflict there is an uncaught rejection, `Except.error`),
then the try block: run the switch, on success mark `processedAt` and
answer 200, on a caught fault answer 500. -/
def afterDedup (env : Env) (event : Event) (st : Store) :
    Except String (Response × Store) :=
  match webhookEventCreate st event with
  | .error m => .error m
  | .ok st1 =>
      match processEvent env event st1 with
      | .error m => .ok (.processingFailed m, st1)
      | .ok st2 => .ok (.received, markProcessed st2 event.id env.now)

/-- The full request handler (lines 38–197): method gate, signature
header gate, secret gate (`!secret` is also true for the empty string),
signature verification, dedup lookup, then `afterDedup`. -/
def handler (env : Env) (req : Request) (st : Store) :
    Except String (Response × Store) :=
  if req.method = "POST" then
    match req.stripeSignature with
    | none => .ok (.missingSignature, st)
    | some sig =>
        match env.webhookSecret with
        | none => .ok (.missingSecret, st)
        | some secret =>
            if secret = "" then .ok (.missingSecret, st)
            else
              match constructEventSafe env req.body sig secret with
              | .err m => .ok (.sigVerificationFailed m, st)
              | .ok event =>
                  match ledgerRow st event.id with
                  | some _ => .ok (.duplicate, st)
                  | none => afterDedup env event st
  else .ok (.methodNotAllowed, st)

/-! ### Concrete fixtures

A seller's connected account, payment-intent/session/account payloads,
and environments, used to instantiate the general theorems. -/

/-- A provisioned seller row, external account id `acct_1`. -/
def acctFix : ConnectedAccount :=
  { id := "ca_1", stripeAccountId := "acct_1", chargesEnabled := true,
    payoutsEnabled := true, detailsSubmitted := true,
    onboardingCompletedAt := some 0, country := some "JP",
    defaultCurrency := some "jpy", requirements := none, capabilities := none }

/-- Metadata attached by the checkout-session creator. -/
def metaFix : PIMetadata :=
  { buyerId := some "user_9", sellerStripeAccountId := some "acct_1",
    platformFee := some 100 }

/-- A succeeded payment intent without an attached charge. -/
def piFix : PaymentIntent :=
  { id := "pi_1", amount_received := some 1000, amount := some 900,
    currency := some "jpy", metadata := some metaFix, latest_charge := none }

/-- The same payment intent carrying a latest-charge id. -/
def piChFix : PaymentIntent := { piFix with latest_charge := some (.idStr "ch_1") }

/-- Event wrapping `piFix`. -/
def evPiFix : Event := { id := "evt_pi", body := .paymentIntentSucceeded piFix }

/-- Event wrapping `piChFix`. -/
def evPiChFix : Event := { id := "evt_pich", body := .paymentIntentSucceeded piChFix }

/-- A completed checkout session correlated with `pi_1`. -/
def sessFix : CheckoutSession := { id := "cs_1", payment_intent := some (.idStr "pi_1") }

/-- Event wrapping `sessFix`. -/
def evSessFix : Event := { id := "evt_sess", body := .checkoutSessionCompleted sessFix }

/-- A POST request whose raw body the fixture verifier maps to `evPiFix`. -/
def reqPiFix : Request :=
  { method := "POST", stripeSignature := some "t=1,v1=abc", body := "pi" }

/-- A POST request whose raw body the fixture verifier maps to `evPiChFix`. -/
def reqPiChFix : Request :=
  { method := "POST", stripeSignature := some "t=1,v1=abc", body := "pich" }

/-- A POST request whose raw body the fixture verifier maps to `evSessFix`. -/
def reqSessFix : Request :=
  { method := "POST", stripeSignature := some "t=1,v1=abc", body := "sess" }

/-- Initial store: the seller exists, no orders, empty ledger. -/
def stFix : Store := { orders := [], webhookEvents := [], connectedAccounts := [acctFix] }

/-- A verifier that accepts every request and dispatches on the raw body. -/
def verifierFix : String → String → String → Except String Event :=
  fun buf _ _ =>
    if buf = "sess" then .ok evSessFix
    else if buf = "pich" then .ok evPiChFix
    else .ok evPiFix

/-- Environment whose charge lookup succeeds with transfer `tr_1`. -/
def envFix : Env :=
  { webhookSecret := some "whsec_1", constructEvent := verifierFix,
    retrieveCharge := fun _ => .ok { transfer := some (.idStr "tr_1") }, now := 42 }

/-- Environment whose charge lookup rejects (provider fault). -/
def envChargeFailFix : Env :=
  { envFix with retrieveCharge := fun _ => .error "charge retrieve failed" }

/-- Environment with no webhook secret configured. -/
def envNoSecretFix : Env := { envFix with webhookSecret := none }

/-- Environment whose verifier rejects every signature. -/
def envBadSigFix : Env :=
  { envFix with
    constructEvent := fun _ _ _ =>
      .error "No signatures found matching the expected signature for payload" }

/-- Metadata naming a seller account that was never provisioned locally. -/
def metaNoSellerFix : PIMetadata := { metaFix with sellerStripeAccountId := some "acct_unknown" }

/-- A succeeded payment intent whose seller is unknown locally. -/
def piNoSellerFix : PaymentIntent := { piFix with metadata := some metaNoSellerFix }

/-- Event wrapping `piNoSellerFix`. -/
def evNoSellerFix : Event := { id := "evt_ns", body := .paymentIntentSucceeded piNoSellerFix }

/-- Environment whose verifier yields `evNoSellerFix`. -/
def envNoSellerFix : Env := { envFix with constructEvent := fun _ _ _ => .ok evNoSellerFix }

/-- A pre-existing Order for `pi_1` with distinct prior values in every
column, to observe which columns an update touches. -/
def ordFix : Order :=
  { paymentIntentId := "pi_1", sellerAccountId := "ca_1", buyerId := some "user_old",
    amount := 5, platformFee := 1, currency := "USD", transferId := some "tr_old",
    status := "created", metadata := PIMetadata.empty,
    checkoutSessionId := some "cs_old", chargeId := some "ch_old",
    amountRefunded := 2, paymentState := "succeeded" }

/-- Store holding the pre-existing Order `ordFix`. -/
def stWithOrderFix : Store := { stFix with orders := [ordFix] }

/-- The store after `evPiFix` is processed against `stFix`: one paid
Order and a stamped ledger row. -/
def stAfterPiFix : Store :=
  { orders := [{ paymentIntentId := "pi_1", sellerAccountId := "ca_1",
                 buyerId := some "user_9", amount := 1000, platformFee := 100,
                 currency := "JPY", transferId := none, status := "paid",
                 metadata := metaFix, checkoutSessionId := none, chargeId := none,
                 amountRefunded := 0, paymentState := "processing" }],
    webhookEvents := [{ stripeEventId := "evt_pi", type := "payment_intent.succeeded",
                        payload := evPiFix, processedAt := some 42 }],
    connectedAccounts := [acctFix] }

/-! ### Frame lemmas about the store operations -/

theorem ledgerAppend_orders (st : Store) (e : Event) :
    (ledgerAppend st e).orders = st.orders := rfl

theorem ledgerAppend_connectedAccounts (st : Store) (e : Event) :
    (ledgerAppend st e).connectedAccounts = st.connectedAccounts := rfl

theorem markProcessed_orders (st : Store) (eid : String) (now : Nat) :
    (markProcessed st eid now).orders = st.orders := rfl

theorem orderAttachSession_webhookEvents (st : Store) (piId sessId : String) :
    (orderAttachSession st piId sessId).webhookEvents = st.webhookEvents := by
  unfold orderAttachSession
  split <;> try rfl
  split <;> rfl

theorem orderUpsert_webhookEvents (st : Store) (pi : PaymentIntent) (sellerId : String)
    (amount platformFee : Int) (currency : String) (transferId buyerId : Option String) :
    (orderUpsert st pi sellerId amount platformFee currency transferId buyerId).webhookEvents
      = st.webhookEvents := by
  unfold orderUpsert
  split <;> rfl

theorem connectedAccountSync_webhookEvents (st : Store) (a : StripeAccount) (now : Nat) :
    (connectedAccountSync st a now).webhookEvents = st.webhookEvents := by
  unfold connectedAccountSync
  split <;> rfl

/-- The event switch never touches the `WebhookEvent` ledger: only the
surrounding code creates the row and stamps `processedAt`. -/
theorem processEvent_webhookEvents (env : Env) (e : Event) (st st' : Store)
    (h : processEvent env e st = .ok st') : st'.webhookEvents = st.webhookEvents := by
  obtain ⟨eid, body⟩ := e
  cases body with
  | checkoutSessionCompleted session =>
      simp only [processEvent] at h
      split at h
      · cases h; rfl
      · split at h
        · cases h; exact orderAttachSession_webhookEvents ..
        · cases h; rfl
  | paymentIntentSucceeded pi =>
      simp only [processEvent] at h
      split at h
      · cases h
      · split at h
        · cases h; rfl
        · cases h; exact orderUpsert_webhookEvents ..
  | accountUpdated account =>
      simp only [processEvent] at h
      cases h; exact connectedAccountSync_webhookEvents ..
  | other t =>
      simp only [processEvent] at h
      cases h; rfl

/-! ### Generic list lemmas -/

/-- Mapping a key-preserving function that acts as `g` on the rows
matching the key commutes with the key lookup. -/
theorem find?_map_update {α : Type} (p : α → Bool) (f g : α → α)
    (hf : ∀ x, p (f x) = p x) (hg : ∀ x, p x = true → f x = g x) (l : List α) :
    (l.map f).find? p = (l.find? p).map g := by
  induction l with
  | nil => rfl
  | cons a l ih =>
      simp only [List.map_cons, List.find?_cons, hf a]
      cases hp : p a
      · simpa using ih
      · simp [hg a hp]

/-- Appending a fresh row to a list that does not contain the key makes
the lookup return exactly that row. -/
theorem find?_append_fresh {α : Type} (p : α → Bool) (l : List α) (r : α)
    (h : l.find? p = none) (hr : p r = true) :
    (l ++ [r]).find? p = some r := by
  rw [List.find?_append, h]
  simp [List.find?_cons, hr]

/-! ### Characterization lemmas for the handler pipeline -/

/-- Once the method, header, secret, and signature gates pass, only the
dedup decision remains. -/
theorem handler_verified (env : Env) (req : Request) (st : Store)
    (sig secret : String) (e : Event)
    (hm : req.method = "POST") (hs : req.stripeSignature = some sig)
    (hsec : env.webhookSecret = some secret) (hne : secret ≠ "")
    (hv : env.constructEvent req.body sig secret = .ok e) :
    handler env req st =
      match ledgerRow st e.id with
      | some _ => .ok (.duplicate, st)
      | none => afterDedup env e st := by
  simp [handler, hm, hs, hsec, hne, constructEventSafe, hv]

/-- On a fresh event the ledger insert succeeds, and the outcome is
decided by the event switch. -/
theorem afterDedup_fresh (env : Env) (e : Event) (st : Store)
    (hfresh : ledgerRow st e.id = none) :
    afterDedup env e st =
      match processEvent env e (ledgerAppend st e) with
      | .error m => .ok (.processingFailed m, ledgerAppend st e)
      | .ok st2 => .ok (.received, markProcessed st2 e.id env.now) := by
  simp only [afterDedup, webhookEventCreate, hfresh]

/-- Unfolding of the `payment_intent.succeeded` switch branch. -/
theorem processEvent_pi (env : Env) (eid : String) (pi : PaymentIntent) (st : Store) :
    processEvent env ⟨eid, .paymentIntentSucceeded pi⟩ st =
      match transferIdStep env pi with
      | .error m => .error m
      | .ok transferId =>
          match st.connectedAccounts.find? (fun a => a.stripeAccountId = sellerAcctOf pi) with
          | none => .ok st
          | some seller =>
              .ok (orderUpsert st pi seller.id (settledAmount pi) (platformFeeOf pi)
                     (settledCurrency pi) transferId (resolveBuyerId pi.metadata)) := rfl

/-- Unfolding of the `checkout.session.completed` switch branch. -/
theorem processEvent_session (env : Env) (eid : String) (session : CheckoutSession)
    (st : Store) :
    processEvent env ⟨eid, .checkoutSessionCompleted session⟩ st =
      match session.payment_intent.map IdOrExpanded.resolve with
      | none => .ok st
      | some piId =>
          if piId ≠ "" ∧ session.id ≠ "" then .ok (orderAttachSession st piId session.id)
          else .ok st := rfl

/-- The freshly inserted ledger row is found by its event id. -/
theorem ledgerRow_ledgerAppend_self (st : Store) (e : Event)
    (hfresh : ledgerRow st e.id = none) :
    ledgerRow (ledgerAppend st e) e.id =
      some { stripeEventId := e.id, type := e.type, payload := e, processedAt := none } := by
  unfold ledgerRow ledgerAppend
  exact find?_append_fresh _ _ _ hfresh (by simp)

/-- Stamping `processedAt` rewrites exactly the looked-up row. -/
theorem ledgerRow_markProcessed (st : Store) (eid : String) (now : Nat) :
    ledgerRow (markProcessed st eid now) eid =
      (ledgerRow st eid).map (fun w => { w with processedAt := some now }) := by
  unfold ledgerRow markProcessed
  dsimp only
  refine find?_map_update _ _ _
    (fun (w : WebhookEvent) => by by_cases h : w.stripeEventId = eid <;> simp [h])
    (fun (w : WebhookEvent) hw => by
      have h : w.stripeEventId = eid := by simpa using hw
      simp [h]) _

/-- On the happy `payment_intent.succeeded` path (fresh event, charge
step succeeds, seller found) the handler acknowledges with 200 and the
final store is the upsert result with the ledger row stamped. -/
theorem handler_pi_upsert (env : Env) (req : Request) (st : Store)
    (sig secret : String) (e : Event) (pi : PaymentIntent) (tid : Option String)
    (acct : ConnectedAccount)
    (hm : req.method = "POST") (hs : req.stripeSignature = some sig)
    (hsec : env.webhookSecret = some secret) (hne : secret ≠ "")
    (hv : env.constructEvent req.body sig secret = .ok e)
    (hbody : e.body = .paymentIntentSucceeded pi)
    (hfresh : ledgerRow st e.id = none)
    (htid : transferIdStep env pi = .ok tid)
    (hseller : st.connectedAccounts.find?
        (fun a => a.stripeAccountId = sellerAcctOf pi) = some acct) :
    handler env req st = .ok (.received,
      markProcessed (orderUpsert (ledgerAppend st e) pi acct.id (settledAmount pi)
        (platformFeeOf pi) (settledCurrency pi) tid (resolveBuyerId pi.metadata))
        e.id env.now) := by
  have hpe : processEvent env e (ledgerAppend st e) =
      .ok (orderUpsert (ledgerAppend st e) pi acct.id (settledAmount pi)
        (platformFeeOf pi) (settledCurrency pi) tid (resolveBuyerId pi.metadata)) := by
    obtain ⟨eid, body⟩ := e
    simp only [Event.body] at hbody
    subst hbody
    simp [processEvent, htid, ledgerAppend_connectedAccounts, hseller]
  rw [handler_verified env req st sig secret e hm hs hsec hne hv, hfresh,
    afterDedup_fresh env e st hfresh, hpe]

/-- The create branch of the Order upsert appends exactly the new row
described by the `create:` block (schema defaults for the columns the
block leaves out). -/
theorem orderUpsert_orders_create (st : Store) (pi : PaymentIntent) (sellerId : String)
    (amount platformFee : Int) (currency : String) (transferId buyerId : Option String)
    (h : st.orders.find? (fun o => o.paymentIntentId = pi.id) = none) :
    (orderUpsert st pi sellerId amount platformFee currency transferId buyerId).orders =
      st.orders ++ [createdOrder pi sellerId amount platformFee currency transferId buyerId] := by
  simp [orderUpsert, h]

/-- The update branch of the Order upsert rewrites exactly the existing
row, keeps the row count, and leaves `transferId` alone when the new
value is undefined. -/
theorem orderUpsert_orders_update (st : Store) (pi : PaymentIntent) (sellerId : String)
    (amount platformFee : Int) (currency : String) (transferId buyerId : Option String)
    (o0 : Order) (h : st.orders.find? (fun o => o.paymentIntentId = pi.id) = some o0) :
    (orderUpsert st pi sellerId amount platformFee currency transferId buyerId).orders.find?
        (fun o => o.paymentIntentId = pi.id) =
      some (updatedOrder pi amount platformFee currency transferId o0) ∧
    (orderUpsert st pi sellerId amount platformFee currency transferId buyerId).orders.length
        = st.orders.length := by
  have hmap := find?_map_update
    (fun (o : Order) => decide (o.paymentIntentId = pi.id))
    (fun o => if o.paymentIntentId = pi.id then
        updatedOrder pi amount platformFee currency transferId o
      else o)
    (updatedOrder pi amount platformFee currency transferId)
    (fun x => by
      by_cases hx : x.paymentIntentId = pi.id <;> simp [hx, updatedOrder])
    (fun x hx => by
      have hx' : x.paymentIntentId = pi.id := by simpa using hx
      simp [hx'])
    st.orders
  constructor
  · simp only [orderUpsert, h]
    rw [hmap, h]
    rfl
  · simp [orderUpsert, h]

/-- Stores with the same ledger agree on every ledger lookup. -/
theorem ledgerRow_eq_of_webhookEvents (st st' : Store) (eid : String)
    (h : st'.webhookEvents = st.webhookEvents) :
    ledgerRow st' eid = ledgerRow st eid := by
  unfold ledgerRow
  rw [h]

/-- Attaching a session id to a missing Order is a no-op (the rejection
is swallowed by the `.catch`). -/
theorem orderAttachSession_noorder (st : Store) (piId sessId : String)
    (h : st.orders.find? (fun o => o.paymentIntentId = piId) = none) :
    orderAttachSession st piId sessId = st := by
  simp [orderAttachSession, h]

/-! ### Claims -/

/-- C4 counterexample: with the webhook secret unset, the concrete POST
request `reqPiFix` (signature header present) is answered with
`missingSecret`, whose HTTP status is 500 — a server-class status, not
the client-class (400-class) status the claim asserts. -/
theorem missing_secret_counterexample :
    handler envNoSecretFix reqPiFix stFix = .ok (.missingSecret, stFix) ∧
      Response.status .missingSecret = 500 ∧
      ¬(400 ≤ Response.status .missingSecret ∧ Response.status .missingSecret < 500) :=
  ⟨rfl, rfl, by decide⟩

/-- C4, amended: a POST request carrying a signature header while the
webhook secret is not configured (unset or empty — `!secret` treats both
as missing) is answered with HTTP 500, a retry-triggering server-class
status, unlike the other rejected-input cases; the store is returned
unchanged. -/
theorem missing_secret_gives_500 (env : Env) (req : Request) (st : Store) (sig : String)
    (hm : req.method = "POST") (hs : req.stripeSignature = some sig)
    (hsec : env.webhookSecret = none ∨ env.webhookSecret = some "") :
    handler env req st = .ok (.missingSecret, st) ∧ Response.status .missingSecret = 500 := by
  refine ⟨?_, rfl⟩
  rcases hsec with h | h <;> simp [handler, hm, hs, h]

/-- Witness for C4: instantiation at the concrete fixture. -/
theorem missing_secret_gives_500_witness :
    handler envNoSecretFix reqPiFix stFix = .ok (.missingSecret, stFix) ∧
      Response.status .missingSecret = 500 :=
  missing_secret_gives_500 envNoSecretFix reqPiFix stFix "t=1,v1=abc" rfl rfl (Or.inl rfl)

/-- C9, confirmed: a POST request whose signature header is present but
fails cryptographic verification is answered with
`sigVerificationFailed` (HTTP 400), and the handler returns the store
exactly as received: no `WebhookEvent` ledger row is written and no
domain row is mutated. -/
theorem bad_signature_rejected (env : Env) (req : Request) (st : Store)
    (sig secret m : String)
    (hm : req.method = "POST") (hs : req.stripeSignature = some sig)
    (hsec : env.webhookSecret = some secret) (hne : secret ≠ "")
    (hv : env.constructEvent req.body sig secret = .error m) :
    handler env req st = .ok (.sigVerificationFailed m, st) ∧
      Response.status (.sigVerificationFailed m) = 400 := by
  refine ⟨?_, rfl⟩
  simp [handler, hm, hs, hsec, hne, constructEventSafe, hv]

/-- Witness for C9: instantiation at the concrete fixture. -/
theorem bad_signature_rejected_witness :
    handler envBadSigFix reqPiFix stFix =
      .ok (.sigVerificationFailed
            "No signatures found matching the expected signature for payload", stFix) ∧
      Response.status (.sigVerificationFailed
            "No signatures found matching the expected signature for payload") = 400 :=
  bad_signature_rejected envBadSigFix reqPiFix stFix "t=1,v1=abc" "whsec_1"
    "No signatures found matching the expected signature for payload"
    rfl rfl rfl (by decide) rfl

/-- C1 counterexample: for the concrete `payment_intent.succeeded` event
`evPiChFix` (latest-charge id `ch_1`) under an environment whose
`charges.retrieve` rejects, the handler answers HTTP 500, performs no
Order upsert (orders stay empty), and leaves the ledger row
unprocessed — it aborts the whole event rather than degrading to an
unset transfer id. -/
theorem charge_retrieve_failure_counterexample :
    handler envChargeFailFix reqPiChFix stFix =
      .ok (.processingFailed "charge retrieve failed", ledgerAppend stFix evPiChFix) ∧
      (ledgerAppend stFix evPiChFix).orders = [] ∧
      ledgerRow (ledgerAppend stFix evPiChFix) "evt_pich" =
        some { stripeEventId := "evt_pich", type := "payment_intent.succeeded",
               payload := evPiChFix, processedAt := none } ∧
      Response.status (.processingFailed "charge retrieve failed") = 500 :=
  ⟨rfl, rfl, rfl, rfl⟩

/-- C1, amended: when a `payment_intent.succeeded` event carries a
latest-charge id and the provider's retrieve-charge call fails, the
handler aborts the whole event with a server-class 500 response: the
mandatory Order upsert is NOT performed (orders are unchanged) and the
event is NOT marked processed (its fresh ledger row keeps
`processedAt = null`), so the provider will redeliver it. -/
theorem charge_retrieve_failure_aborts (env : Env) (req : Request) (st : Store)
    (sig secret m cid : String) (e : Event) (pi : PaymentIntent)
    (hm : req.method = "POST") (hs : req.stripeSignature = some sig)
    (hsec : env.webhookSecret = some secret) (hne : secret ≠ "")
    (hv : env.constructEvent req.body sig secret = .ok e)
    (hbody : e.body = .paymentIntentSucceeded pi)
    (hfresh : ledgerRow st e.id = none)
    (hcid : resolveChargeId pi = some cid)
    (hfail : env.retrieveCharge cid = .error m) :
    handler env req st = .ok (.processingFailed m, ledgerAppend st e) ∧
      (ledgerAppend st e).orders = st.orders ∧
      ledgerRow (ledgerAppend st e) e.id =
        some { stripeEventId := e.id, type := e.type, payload := e, processedAt := none } ∧
      Response.status (.processingFailed m) = 500 := by
  have htid : transferIdStep env pi = .error m := by
    simp [transferIdStep, hcid, hfail]
  have hpe : processEvent env e (ledgerAppend st e) = .error m := by
    obtain ⟨eid, body⟩ := e
    simp only [Event.body] at hbody
    subst hbody
    simp [processEvent, htid]
  rw [handler_verified env req st sig secret e hm hs hsec hne hv, hfresh,
    afterDedup_fresh env e st hfresh, hpe]
  exact ⟨rfl, rfl, ledgerRow_ledgerAppend_self st e hfresh, rfl⟩

/-- Witness for C1 (amended): instantiation at the concrete fixture. -/
theorem charge_retrieve_failure_aborts_witness :
    handler envChargeFailFix reqPiChFix stFix =
      .ok (.processingFailed "charge retrieve failed", ledgerAppend stFix evPiChFix) ∧
      (ledgerAppend stFix evPiChFix).orders = stFix.orders ∧
      ledgerRow (ledgerAppend stFix evPiChFix) evPiChFix.id =
        some { stripeEventId := evPiChFix.id, type := evPiChFix.type,
               payload := evPiChFix, processedAt := none } ∧
      Response.status (.processingFailed "charge retrieve failed") = 500 :=
  charge_retrieve_failure_aborts envChargeFailFix reqPiChFix stFix
    "t=1,v1=abc" "whsec_1" "charge retrieve failed" "ch_1" evPiChFix piChFix
    rfl rfl rfl (by decide) rfl rfl rfl rfl rfl

/-- C2 counterexample: the losing side of a duplicate-delivery race (its
dedup lookup saw nothing, but the winner's ledger row is in place by the
time it inserts) does NOT get a duplicate acknowledgment: at the
concrete input, the post-dedup continuation propagates the
uniqueness-conflict rejection out of the handler as an uncaught fault
instead of returning any 200 response. -/
theorem race_loser_counterexample :
    afterDedup envFix evPiFix (ledgerAppend stFix evPiFix) =
      .error "Unique constraint failed on the fields: (stripeEventId)" := rfl

/-- C2, amended: when the ledger insert hits the uniqueness conflict
(the event row is already present although the dedup lookup had missed
it), the handler does not detect the conflict: the rejection escapes the
handler as an unhandled fault (the insert sits outside the try/catch),
rather than being absorbed as an already-seen duplicate
acknowledgment. -/
theorem race_loser_fault_propagates (env : Env) (e : Event) (st : Store)
    (w : WebhookEvent) (hrow : ledgerRow st e.id = some w) :
    afterDedup env e st =
      .error "Unique constraint failed on the fields: (stripeEventId)" := by
  simp [afterDedup, webhookEventCreate, hrow]

/-- Witness for C2 (amended): instantiation at the concrete fixture. -/
theorem race_loser_fault_propagates_witness :
    afterDedup envFix evPiFix (ledgerAppend stFix evPiFix) =
      .error "Unique constraint failed on the fields: (stripeEventId)" :=
  race_loser_fault_propagates envFix evPiFix (ledgerAppend stFix evPiFix)
    { stripeEventId := "evt_pi", type := "payment_intent.succeeded",
      payload := evPiFix, processedAt := none } rfl

/-- C6, confirmed: a `payment_intent.succeeded` event whose seller
account id matches no local `ConnectedAccount` creates no Order row
(orders unchanged), is still marked processed (`processedAt` stamped on
its ledger row), and is acknowledged with HTTP 200, not a
retry-triggering failure. (The charge-enrichment step is assumed not to
fault, as it runs before the seller lookup.) -/
theorem unknown_seller_acknowledged (env : Env) (req : Request) (st : Store)
    (sig secret : String) (e : Event) (pi : PaymentIntent) (tid : Option String)
    (hm : req.method = "POST") (hs : req.stripeSignature = some sig)
    (hsec : env.webhookSecret = some secret) (hne : secret ≠ "")
    (hv : env.constructEvent req.body sig secret = .ok e)
    (hbody : e.body = .paymentIntentSucceeded pi)
    (hfresh : ledgerRow st e.id = none)
    (htid : transferIdStep env pi = .ok tid)
    (hseller : st.connectedAccounts.find?
        (fun a => a.stripeAccountId = sellerAcctOf pi) = none) :
    handler env req st = .ok (.received, markProcessed (ledgerAppend st e) e.id env.now) ∧
      (markProcessed (ledgerAppend st e) e.id env.now).orders = st.orders ∧
      ledgerRow (markProcessed (ledgerAppend st e) e.id env.now) e.id =
        some { stripeEventId := e.id, type := e.type, payload := e,
               processedAt := some env.now } ∧
      Response.status .received = 200 := by
  have hpe : processEvent env e (ledgerAppend st e) = .ok (ledgerAppend st e) := by
    obtain ⟨eid, body⟩ := e
    simp only [Event.body] at hbody
    subst hbody
    simp [processEvent, htid, ledgerAppend_connectedAccounts, hseller]
  refine ⟨?_, rfl, ?_, rfl⟩
  · rw [handler_verified env req st sig secret e hm hs hsec hne hv, hfresh,
      afterDedup_fresh env e st hfresh, hpe]
  · rw [ledgerRow_markProcessed, ledgerRow_ledgerAppend_self st e hfresh]
    rfl

/-- Witness for C6: instantiation at the concrete fixture. -/
theorem unknown_seller_acknowledged_witness :
    handler envNoSellerFix reqPiFix stFix =
      .ok (.received, markProcessed (ledgerAppend stFix evNoSellerFix)
            evNoSellerFix.id envNoSellerFix.now) ∧
      (markProcessed (ledgerAppend stFix evNoSellerFix)
        evNoSellerFix.id envNoSellerFix.now).orders = stFix.orders ∧
      ledgerRow (markProcessed (ledgerAppend stFix evNoSellerFix)
          evNoSellerFix.id envNoSellerFix.now) evNoSellerFix.id =
        some { stripeEventId := evNoSellerFix.id, type := evNoSellerFix.type,
               payload := evNoSellerFix, processedAt := some envNoSellerFix.now } ∧
      Response.status .received = 200 :=
  unknown_seller_acknowledged envNoSellerFix reqPiFix stFix
    "t=1,v1=abc" "whsec_1" evNoSellerFix piNoSellerFix none
    rfl rfl rfl (by decide) rfl rfl rfl rfl rfl

/-- C5, confirmed: for a `payment_intent.succeeded` event whose seller
metadata resolves to an existing `ConnectedAccount` (and whose
charge-enrichment step does not fault), with `amount_received = a` and
currency `c`: if no Order exists for the payment-intent id, afterwards
exactly one Order row carries that id, with amount `a` (preferred over
`pi.amount`), currency `c` uppercased, and status `"paid"`; if an Order
already exists, the same row is updated (amount, platform fee, currency,
status) and the row count is unchanged — no second row. -/
theorem order_upsert_semantics (env : Env) (req : Request) (st : Store)
    (sig secret : String) (e : Event) (pi : PaymentIntent) (tid : Option String)
    (a : Int) (c : String) (acct : ConnectedAccount)
    (hm : req.method = "POST") (hs : req.stripeSignature = some sig)
    (hsec : env.webhookSecret = some secret) (hne : secret ≠ "")
    (hv : env.constructEvent req.body sig secret = .ok e)
    (hbody : e.body = .paymentIntentSucceeded pi)
    (hfresh : ledgerRow st e.id = none)
    (hamt : pi.amount_received = some a)
    (hcur : pi.currency = some c)
    (htid : transferIdStep env pi = .ok tid)
    (hseller : st.connectedAccounts.find?
        (fun x => x.stripeAccountId = sellerAcctOf pi) = some acct) :
    ∃ st', handler env req st = .ok (.received, st') ∧
      (st.orders.find? (fun o => o.paymentIntentId = pi.id) = none →
        (st'.orders.filter (fun o => o.paymentIntentId = pi.id)).length = 1 ∧
        ∃ o, st'.orders.find? (fun o => o.paymentIntentId = pi.id) = some o ∧
          o.amount = a ∧ o.currency = jsToUpper c ∧ o.status = "paid") ∧
      (∀ o0, st.orders.find? (fun o => o.paymentIntentId = pi.id) = some o0 →
        st'.orders.length = st.orders.length ∧
        ∃ o, st'.orders.find? (fun o => o.paymentIntentId = pi.id) = some o ∧
          o.amount = a ∧ o.platformFee = platformFeeOf pi ∧ o.currency = jsToUpper c ∧
          o.status = "paid") := by
  have ha : settledAmount pi = a := by simp [settledAmount, hamt]
  have hc : settledCurrency pi = jsToUpper c := by simp [settledCurrency, hcur]
  refine ⟨_, handler_pi_upsert env req st sig secret e pi tid acct
      hm hs hsec hne hv hbody hfresh htid hseller, ?_, ?_⟩
  · intro hnone
    have hn' : (ledgerAppend st e).orders.find?
        (fun o => o.paymentIntentId = pi.id) = none := by
      rw [ledgerAppend_orders]; exact hnone
    have hords := orderUpsert_orders_create (ledgerAppend st e) pi acct.id
      (settledAmount pi) (platformFeeOf pi) (settledCurrency pi) tid
      (resolveBuyerId pi.metadata) hn'
    rw [ledgerAppend_orders] at hords
    constructor
    · rw [markProcessed_orders, hords, List.filter_append]
      have hnil : st.orders.filter (fun o => o.paymentIntentId = pi.id) = [] :=
        List.filter_eq_nil_iff.mpr (fun o ho => List.find?_eq_none.mp hnone o ho)
      simp [hnil, createdOrder]
    · refine ⟨createdOrder pi acct.id (settledAmount pi) (platformFeeOf pi)
        (settledCurrency pi) tid (resolveBuyerId pi.metadata), ?_, ?_, ?_, ?_⟩
      · rw [markProcessed_orders, hords]
        exact find?_append_fresh _ _ _ hnone (by simp [createdOrder])
      · simp [createdOrder, ha]
      · simp [createdOrder, hc]
      · simp [createdOrder]
  · intro o0 h0
    have hs' : (ledgerAppend st e).orders.find?
        (fun o => o.paymentIntentId = pi.id) = some o0 := by
      rw [ledgerAppend_orders]; exact h0
    obtain ⟨hfind, hlen⟩ := orderUpsert_orders_update (ledgerAppend st e) pi acct.id
      (settledAmount pi) (platformFeeOf pi) (settledCurrency pi) tid
      (resolveBuyerId pi.metadata) o0 hs'
    constructor
    · rw [markProcessed_orders, hlen, ledgerAppend_orders]
    · refine ⟨updatedOrder pi (settledAmount pi) (platformFeeOf pi) (settledCurrency pi)
        tid o0, ?_, ?_, ?_, ?_, ?_⟩
      · rw [markProcessed_orders]; exact hfind
      · simp [updatedOrder, ha]
      · simp [updatedOrder]
      · simp [updatedOrder, hc]
      · simp [updatedOrder]

/-- Witness for C5: instantiation at the concrete fixtures (create case
applies with `stFix.orders = []`). -/
theorem order_upsert_semantics_witness :
    ∃ st', handler envFix reqPiFix stFix = .ok (.received, st') ∧
      (stFix.orders.find? (fun o => o.paymentIntentId = piFix.id) = none →
        (st'.orders.filter (fun o => o.paymentIntentId = piFix.id)).length = 1 ∧
        ∃ o, st'.orders.find? (fun o => o.paymentIntentId = piFix.id) = some o ∧
          o.amount = 1000 ∧ o.currency = jsToUpper "jpy" ∧ o.status = "paid") ∧
      (∀ o0, stFix.orders.find? (fun o => o.paymentIntentId = piFix.id) = some o0 →
        st'.orders.length = stFix.orders.length ∧
        ∃ o, st'.orders.find? (fun o => o.paymentIntentId = piFix.id) = some o ∧
          o.amount = 1000 ∧ o.platformFee = platformFeeOf piFix ∧
          o.currency = jsToUpper "jpy" ∧ o.status = "paid") :=
  order_upsert_semantics envFix reqPiFix stFix "t=1,v1=abc" "whsec_1" evPiFix piFix
    none 1000 "jpy" acctFix rfl rfl rfl (by decide) rfl rfl rfl rfl rfl rfl rfl

/-- C10, confirmed: when an Order already exists for the payment-intent
id, the upsert's update writes only amount, platformFee, currency,
transferId, status and metadata; buyerId, checkoutSessionId, chargeId,
paymentIntentId, sellerAccountId, amountRefunded and paymentState keep
their prior values, and when the payload carries no charge id the
transferId is also left unchanged (not overwritten with null). -/
theorem order_update_frame (env : Env) (req : Request) (st : Store)
    (sig secret : String) (e : Event) (pi : PaymentIntent) (tid : Option String)
    (acct : ConnectedAccount) (o0 : Order)
    (hm : req.method = "POST") (hs : req.stripeSignature = some sig)
    (hsec : env.webhookSecret = some secret) (hne : secret ≠ "")
    (hv : env.constructEvent req.body sig secret = .ok e)
    (hbody : e.body = .paymentIntentSucceeded pi)
    (hfresh : ledgerRow st e.id = none)
    (htid : transferIdStep env pi = .ok tid)
    (hseller : st.connectedAccounts.find?
        (fun x => x.stripeAccountId = sellerAcctOf pi) = some acct)
    (horder : st.orders.find? (fun o => o.paymentIntentId = pi.id) = some o0) :
    ∃ st' o', handler env req st = .ok (.received, st') ∧
      st'.orders.find? (fun o => o.paymentIntentId = pi.id) = some o' ∧
      o'.amount = settledAmount pi ∧ o'.platformFee = platformFeeOf pi ∧
      o'.currency = settledCurrency pi ∧ o'.status = "paid" ∧
      o'.metadata = pi.metadata.getD PIMetadata.empty ∧
      o'.buyerId = o0.buyerId ∧ o'.checkoutSessionId = o0.checkoutSessionId ∧
      o'.chargeId = o0.chargeId ∧ o'.paymentIntentId = o0.paymentIntentId ∧
      o'.sellerAccountId = o0.sellerAccountId ∧ o'.amountRefunded = o0.amountRefunded ∧
      o'.paymentState = o0.paymentState ∧
      (resolveChargeId pi = none → o'.transferId = o0.transferId) := by
  have hs' : (ledgerAppend st e).orders.find?
      (fun o => o.paymentIntentId = pi.id) = some o0 := by
    rw [ledgerAppend_orders]; exact horder
  obtain ⟨hfind, hlen⟩ := orderUpsert_orders_update (ledgerAppend st e) pi acct.id
    (settledAmount pi) (platformFeeOf pi) (settledCurrency pi) tid
    (resolveBuyerId pi.metadata) o0 hs'
  refine ⟨_, updatedOrder pi (settledAmount pi) (platformFeeOf pi) (settledCurrency pi)
      tid o0,
    handler_pi_upsert env req st sig secret e pi tid acct
      hm hs hsec hne hv hbody hfresh htid hseller,
    ?_, ?_, ?_, ?_, ?_, ?_, ?_, ?_, ?_, ?_, ?_, ?_, ?_, ?_⟩
  · rw [markProcessed_orders]; exact hfind
  · simp [updatedOrder]
  · simp [updatedOrder]
  · simp [updatedOrder]
  · simp [updatedOrder]
  · simp [updatedOrder]
  · simp [updatedOrder]
  · simp [updatedOrder]
  · simp [updatedOrder]
  · simp [updatedOrder]
  · simp [updatedOrder]
  · simp [updatedOrder]
  · simp [updatedOrder]
  · intro hnocid
    have htid' : tid = none := by
      rw [transferIdStep, hnocid] at htid
      exact (Except.ok.injEq _ _ ▸ htid).symm
    subst htid'
    simp [updatedOrder]

/-- Witness for C10: instantiation at the concrete fixtures — the
pre-existing Order `ordFix` keeps its buyer, session id, charge id,
refund state, and (with no charge id in the payload) its transfer
id. -/
theorem order_update_frame_witness :
    ∃ st' o', handler envFix reqPiFix stWithOrderFix = .ok (.received, st') ∧
      st'.orders.find? (fun o => o.paymentIntentId = piFix.id) = some o' ∧
      o'.amount = settledAmount piFix ∧ o'.platformFee = platformFeeOf piFix ∧
      o'.currency = settledCurrency piFix ∧ o'.status = "paid" ∧
      o'.metadata = piFix.metadata.getD PIMetadata.empty ∧
      o'.buyerId = ordFix.buyerId ∧ o'.checkoutSessionId = ordFix.checkoutSessionId ∧
      o'.chargeId = ordFix.chargeId ∧ o'.paymentIntentId = ordFix.paymentIntentId ∧
      o'.sellerAccountId = ordFix.sellerAccountId ∧
      o'.amountRefunded = ordFix.amountRefunded ∧
      o'.paymentState = ordFix.paymentState ∧
      (resolveChargeId piFix = none → o'.transferId = ordFix.transferId) :=
  order_update_frame envFix reqPiFix stWithOrderFix "t=1,v1=abc" "whsec_1" evPiFix
    piFix none acctFix ordFix rfl rfl rfl (by decide) rfl rfl rfl rfl rfl rfl

/-- C7, confirmed: after a first successful (`received`, 200) processing
of a verified event, delivering the identical event again yields a
second 200-class response (`duplicate`) and returns the store
unchanged — the two deliveries together perform exactly the single
domain mutation of the first. -/
theorem duplicate_delivery_idempotent (env : Env) (req : Request) (st0 st1 : Store)
    (sig secret : String) (e : Event)
    (hm : req.method = "POST") (hs : req.stripeSignature = some sig)
    (hsec : env.webhookSecret = some secret) (hne : secret ≠ "")
    (hv : env.constructEvent req.body sig secret = .ok e)
    (h1 : handler env req st0 = .ok (.received, st1)) :
    handler env req st1 = .ok (.duplicate, st1) ∧ Response.status .duplicate = 200 := by
  rw [handler_verified env req st0 sig secret e hm hs hsec hne hv] at h1
  cases hrow : ledgerRow st0 e.id with
  | some w =>
      rw [hrow] at h1
      simp at h1
  | none =>
      rw [hrow, afterDedup_fresh env e st0 hrow] at h1
      cases hpe : processEvent env e (ledgerAppend st0 e) with
      | error m =>
          rw [hpe] at h1
          simp at h1
      | ok st2 =>
          rw [hpe] at h1
          simp at h1
          subst h1
          have h2 : ledgerRow st2 e.id =
              some { stripeEventId := e.id, type := e.type, payload := e,
                     processedAt := none } :=
            (ledgerRow_eq_of_webhookEvents (ledgerAppend st0 e) st2 e.id
              (processEvent_webhookEvents env e (ledgerAppend st0 e) st2 hpe)).trans
              (ledgerRow_ledgerAppend_self st0 e hrow)
          have h3 : ledgerRow (markProcessed st2 e.id env.now) e.id =
              some { stripeEventId := e.id, type := e.type, payload := e,
                     processedAt := some env.now } := by
            rw [ledgerRow_markProcessed, h2]
            rfl
          rw [handler_verified env req (markProcessed st2 e.id env.now) sig secret e
            hm hs hsec hne hv, h3]
          exact ⟨rfl, rfl⟩

/-- Witness for C7: the second delivery of `evPiFix` against the
post-processing store is acknowledged as a duplicate with the store
unchanged. -/
theorem duplicate_delivery_idempotent_witness :
    handler envFix reqPiFix stAfterPiFix = .ok (.duplicate, stAfterPiFix) ∧
      Response.status .duplicate = 200 :=
  duplicate_delivery_idempotent envFix reqPiFix stFix stAfterPiFix
    "t=1,v1=abc" "whsec_1" evPiFix rfl rfl rfl (by decide) rfl rfl

/-- C8, confirmed: for a fresh verified event, the `WebhookEvent` row is
inserted before the event switch runs, so it is present in the final
store even when processing faults; `processedAt` is stamped (with the
handler's clock) exactly on the `received` success path, and whenever
the handler responds with a server-class 500 the row is present with
`processedAt` still unset. -/
theorem ledger_lifecycle (env : Env) (req : Request) (st st' : Store)
    (sig secret : String) (e : Event) (resp : Response)
    (hm : req.method = "POST") (hs : req.stripeSignature = some sig)
    (hsec : env.webhookSecret = some secret) (hne : secret ≠ "")
    (hv : env.constructEvent req.body sig secret = .ok e)
    (hfresh : ledgerRow st e.id = none)
    (h : handler env req st = .ok (resp, st')) :
    (∃ w, ledgerRow st' e.id = some w) ∧
    (resp = .received →
      ledgerRow st' e.id =
        some { stripeEventId := e.id, type := e.type, payload := e,
               processedAt := some env.now }) ∧
    (Response.status resp = 500 →
      ledgerRow st' e.id =
        some { stripeEventId := e.id, type := e.type, payload := e,
               processedAt := none }) := by
  rw [handler_verified env req st sig secret e hm hs hsec hne hv, hfresh,
    afterDedup_fresh env e st hfresh] at h
  cases hpe : processEvent env e (ledgerAppend st e) with
  | error m =>
      rw [hpe] at h
      simp at h
      obtain ⟨hresp, hst⟩ := h
      subst hresp
      subst hst
      refine ⟨⟨_, ledgerRow_ledgerAppend_self st e hfresh⟩, ?_, ?_⟩
      · intro hr
        simp at hr
      · intro _
        exact ledgerRow_ledgerAppend_self st e hfresh
  | ok st2 =>
      rw [hpe] at h
      simp at h
      obtain ⟨hresp, hst⟩ := h
      subst hresp
      subst hst
      have h2 : ledgerRow st2 e.id =
          some { stripeEventId := e.id, type := e.type, payload := e,
                 processedAt := none } :=
        (ledgerRow_eq_of_webhookEvents (ledgerAppend st e) st2 e.id
          (processEvent_webhookEvents env e (ledgerAppend st e) st2 hpe)).trans
          (ledgerRow_ledgerAppend_self st e hfresh)
      have h3 : ledgerRow (markProcessed st2 e.id env.now) e.id =
          some { stripeEventId := e.id, type := e.type, payload := e,
                 processedAt := some env.now } := by
        rw [ledgerRow_markProcessed, h2]
        rfl
      refine ⟨⟨_, h3⟩, fun _ => h3, ?_⟩
      intro h5
      simp [Response.status] at h5

/-- Witness for C8: instantiation on the success path of `evPiFix`. -/
theorem ledger_lifecycle_witness :
    (∃ w, ledgerRow stAfterPiFix evPiFix.id = some w) ∧
    (Response.received = .received →
      ledgerRow stAfterPiFix evPiFix.id =
        some { stripeEventId := evPiFix.id, type := evPiFix.type, payload := evPiFix,
               processedAt := some envFix.now }) ∧
    (Response.status .received = 500 →
      ledgerRow stAfterPiFix evPiFix.id =
        some { stripeEventId := evPiFix.id, type := evPiFix.type, payload := evPiFix,
               processedAt := none }) :=
  ledger_lifecycle envFix reqPiFix stFix stAfterPiFix "t=1,v1=abc" "whsec_1"
    evPiFix .received rfl rfl rfl (by decide) rfl rfl rfl

/-- C3 counterexample: the concrete three-step run — the session event
`evSessFix` with no Order (no-op success), then the payment event
`evPiFix` (creates the Order), then the IDENTICAL session event
again — ends with a duplicate acknowledgment and an Order whose
`checkoutSessionId` is still null, not `cs_1` as the claim asserts. -/
theorem session_replay_counterexample :
    (do
      let p1 ← handler envFix reqSessFix stFix
      let p2 ← handler envFix reqPiFix p1.2
      let p3 ← handler envFix reqSessFix p2.2
      pure (p1.1, p2.1, p3.1,
        p3.2.orders.map (fun (o : Order) => (o.paymentIntentId, o.checkoutSessionId)))
      : Except String (Response × Response × Response × List (String × Option String))) =
      .ok (.received, .received, .duplicate, [("pi_1", none)]) := rfl

/-- C3, amended: processing a `checkout.session.completed` event whose
payment-intent id has no Order is a successful no-op on the orders
table; but re-delivering the IDENTICAL session event (same event id)
after the Order has been created is absorbed by the dedup gate — a
duplicate acknowledgment with the store returned unchanged — so the
replay does NOT set the Order's `checkoutSessionId`; only a session
event with a fresh event id would attach it. -/
theorem session_noop_and_replay_deduped :
    (∀ (env : Env) (req : Request) (st : Store) (sig secret : String) (e : Event)
        (session : CheckoutSession) (piId : String),
      req.method = "POST" → req.stripeSignature = some sig →
      env.webhookSecret = some secret → secret ≠ "" →
      env.constructEvent req.body sig secret = .ok e →
      e.body = .checkoutSessionCompleted session →
      ledgerRow st e.id = none →
      session.payment_intent.map IdOrExpanded.resolve = some piId →
      st.orders.find? (fun o => o.paymentIntentId = piId) = none →
      ∃ st', handler env req st = .ok (.received, st') ∧ st'.orders = st.orders) ∧
    (∀ (env : Env) (req : Request) (st : Store) (sig secret : String) (e : Event)
        (w : WebhookEvent),
      req.method = "POST" → req.stripeSignature = some sig →
      env.webhookSecret = some secret → secret ≠ "" →
      env.constructEvent req.body sig secret = .ok e →
      ledgerRow st e.id = some w →
      handler env req st = .ok (.duplicate, st)) := by
  constructor
  · intro env req st sig secret e session piId hm hs hsec hne hv hbody hfresh hpiId hnoorder
    have hpe : processEvent env e (ledgerAppend st e) = .ok (ledgerAppend st e) := by
      obtain ⟨eid, body⟩ := e
      simp only [Event.body] at hbody
      subst hbody
      rw [processEvent_session, hpiId]
      split
      · rfl
      · rename_i b heq
        cases heq
        split
        · rw [orderAttachSession_noorder]
          rw [ledgerAppend_orders]
          exact hnoorder
        · rfl
    refine ⟨markProcessed (ledgerAppend st e) e.id env.now, ?_, ?_⟩
    · rw [handler_verified env req st sig secret e hm hs hsec hne hv, hfresh,
        afterDedup_fresh env e st hfresh, hpe]
    · rw [markProcessed_orders, ledgerAppend_orders]
  · intro env req st sig secret e w hm hs hsec hne hv hrow
    rw [handler_verified env req st sig secret e hm hs hsec hne hv, hrow]

/-- Witness for C3 (amended): the no-op part at the empty store and the
dedup part at the store already holding the session event's row. -/
theorem session_noop_and_replay_deduped_witness :
    (∃ st', handler envFix reqSessFix stFix = .ok (.received, st') ∧
      st'.orders = stFix.orders) ∧
    handler envFix reqSessFix (ledgerAppend stFix evSessFix) =
      .ok (.duplicate, ledgerAppend stFix evSessFix) :=
  ⟨session_noop_and_replay_deduped.1 envFix reqSessFix stFix "t=1,v1=abc" "whsec_1"
      evSessFix sessFix "pi_1" rfl rfl rfl (by decide) rfl rfl rfl rfl rfl,
   session_noop_and_replay_deduped.2 envFix reqSessFix (ledgerAppend stFix evSessFix)
      "t=1,v1=abc" "whsec_1" evSessFix
      { stripeEventId := "evt_sess", type := "checkout.session.completed",
        payload := evSessFix, processedAt := none }
      rfl rfl rfl (by decide) rfl rfl⟩

end StripeWebhook
